import Mathlib

/-!
Shallow embedding of the taskbase voting engine (yiwen-ai/taskbase).

The embedding models the persisted task / notification rows and the
operations of `src/db/model_task.rs`, `src/db/model_notification.rs`,
`src/api/task.rs` and `src/api/notification.rs` as pure functions over an
explicit store state.  The backing store holds at most one task row per
`(uid, id)` key; since every operation below works on a single key, the
store is modelled as an `Option TaskRow` (and an `Option NotifRow` for the
notification of a single `(uid, tid, sender)` key).  Each operation returns
its result, the store state after the call, and the list of conditional
writes it issued, so that "performs no write" claims are directly statable.
All operations are sequential: a conditional write issued right after a
read sees the state that read produced, which is the behaviour of the code
in the absence of concurrent requests.
-/

namespace Taskbase

/-- Identity values (`xid::Id`) are modelled as natural numbers. -/
abbrev Xid := Nat

/-- Error type of the fallible operations (`axum_web::erring::HTTPError`):
an HTTP status code plus a message. -/
structure HTTPError where
  code : Nat
  message : String
deriving DecidableEq

/-- Value stored in a `ColumnsMap` entry (`scylla_orm::CqlValue`), restricted
to the column types the modelled operations write. -/
inductive CqlVal where
  | int (i : Int)
  | str (s : String)
deriving DecidableEq

/-- Persisted columns of the `task` table (`struct Task` in
`src/db/model_task.rs`).  `status` is an `i8`, `threshold` an `i16`,
timestamps are `i64`; all are modelled as `Int`.  The four identity sets
(`HashSet<xid::Id>`) are modelled as `Finset Xid`. -/
structure TaskRow where
  uid : Xid
  id : Xid
  gid : Xid
  status : Int
  kind : String
  created_at : Int
  updated_at : Int
  duedate : Int
  threshold : Int
  approvers : Finset Xid
  assignees : Finset Xid
  resolved : Finset Xid
  rejected : Finset Xid
  message : String
  payload : List Nat
deriving DecidableEq

/-- Persisted columns of the `notification` table (`struct Notification` in
`src/db/model_notification.rs`). -/
structure NotifRow where
  uid : Xid
  tid : Xid
  sender : Xid
  status : Int
  message : String
deriving DecidableEq

/-- Rust's `threshold as usize` on an `i16`: the value is sign extended and
reinterpreted as a 64-bit unsigned integer, so a negative threshold becomes
a huge bound. -/
def i16AsUsize (t : Int) : Nat := (t % (2 : Int) ^ 64).toNat

/-- Conditional writes issued against the store, recorded so that claims
about which writes an operation performs can be stated. -/
inductive Write where
  | voteResolve (voter : Xid)
  | voteReject (voter : Xid)
  | setStatus (s : Int)
  | scalarUpdate (fields : List (String × CqlVal)) (newUpdatedAt : Int)
  | assigneesRemove (ids : List Xid) (newUpdatedAt : Int)
  | assigneesAdd (ids : List Xid) (newUpdatedAt : Int)
  | insertTask (row : TaskRow)
  | notifSet (status : Int) (message : String)
  | insertNotif (row : NotifRow)
deriving DecidableEq

deriving instance DecidableEq for Except

/-- Result of a task-store operation: the returned value or error, the task
store after the call, and the conditional writes issued. -/
structure TaskOut (α : Type) where
  res : Except HTTPError α
  db : Option TaskRow
  writes : List Write
deriving DecidableEq

/-- Error returned by `Task::update_resolved` when the permission check
fails (`HTTPError::new(403, "can not resolve task")`). -/
def permResolveErr : HTTPError := ⟨403, "can not resolve task"⟩

/-- Error returned by `Task::update_rejected` when the permission check
fails (`HTTPError::new(403, "can not reject task")`). -/
def permRejectErr : HTTPError := ⟨403, "can not reject task"⟩

/-- Error surfaced when `get_one` finds no row (`single_row()` on an empty
result): the row is absent, a not-found error. -/
def notFoundErr : HTTPError := ⟨404, "task not found"⟩

/-- Error returned when the `IF EXISTS` vote write of `update_rejected` is
not applied. -/
def rejectCasErr : HTTPError := ⟨409, "Task update_rejected failed, please try again"⟩

/-- Model of `Task::update_resolved` (src/db/model_task.rs:264-321).
Steps of the code, in order: `get_one` re-reads `approvers`/`assignees`
(erroring if the row is absent); the permission check errors with 403 when
`approvers` or `assignees` is non-empty and the voter is in neither; one
conditional write removes the voter from `rejected` and adds it to
`resolved` (`IF EXISTS`, applied since the row exists); `get_one` re-reads
`threshold`/`status`/`resolved`/`rejected`; finally, if `status != 1` and
`can_approve` (`approvers` empty or voter in `approvers`, from the first
read) and `resolved.len() >= threshold as usize` and
`resolved.len() > rejected.len()`, an `IF EXISTS` write sets `status = 1`. -/
def Task.update_resolved (db : Option TaskRow) (assignee : Xid) : TaskOut Bool :=
  match db with
  | none => ⟨.error notFoundErr, none, []⟩
  | some row =>
    if (row.approvers ≠ ∅ ∨ row.assignees ≠ ∅) ∧
        assignee ∉ row.approvers ∧ assignee ∉ row.assignees then
      ⟨.error permResolveErr, some row, []⟩
    else
      let row1 : TaskRow :=
        { row with rejected := row.rejected.erase assignee,
                   resolved := insert assignee row.resolved }
      let can_approve := row.approvers = ∅ ∨ assignee ∈ row.approvers
      if row1.status ≠ 1 ∧ can_approve ∧
          i16AsUsize row1.threshold ≤ row1.resolved.card ∧
          row1.rejected.card < row1.resolved.card then
        ⟨.ok true, some { row1 with status := 1 },
          [Write.voteResolve assignee, Write.setStatus 1]⟩
      else
        ⟨.ok true, some row1, [Write.voteResolve assignee]⟩

/-- Model of `Task::update_rejected` (src/db/model_task.rs:323-377).
Unlike `update_resolved`, the code does NOT re-read
`approvers`/`assignees` before its permission check: the check and the
later `can_approve` use the caller's in-memory struct fields, passed here
as `memApprovers`/`memAssignees`.  Through the only caller
(`api::task::ack`) the struct is fresh from `Task::with_pk`, so both are
empty.  Order of the code: permission check on the in-memory sets; one
`IF EXISTS` write removing the voter from `resolved` and adding it to
`rejected` (not applied — a 409 — when the row is absent); `get_one`
re-reads `threshold`/`status`/`resolved`/`rejected`; finally the mirrored
rule writes `status = -1`. -/
def Task.update_rejected (memApprovers memAssignees : Finset Xid)
    (db : Option TaskRow) (assignee : Xid) : TaskOut Bool :=
  if (memApprovers ≠ ∅ ∨ memAssignees ≠ ∅) ∧
      assignee ∉ memApprovers ∧ assignee ∉ memAssignees then
    ⟨.error permRejectErr, db, []⟩
  else
    match db with
    | none => ⟨.error rejectCasErr, none, []⟩
    | some row =>
      let row1 : TaskRow :=
        { row with resolved := row.resolved.erase assignee,
                   rejected := insert assignee row.rejected }
      let can_approve := memApprovers = ∅ ∨ assignee ∈ memApprovers
      if row1.status ≠ -1 ∧ can_approve ∧
          i16AsUsize row1.threshold ≤ row1.rejected.card ∧
          row1.resolved.card < row1.rejected.card then
        ⟨.ok true, some { row1 with status := -1 },
          [Write.voteReject assignee, Write.setStatus (-1)]⟩
      else
        ⟨.ok true, some row1, [Write.voteReject assignee]⟩

/-- Field names `Task::update` accepts (`valid_fields` in the source). -/
def validUpdateFields : List String := ["duedate", "message"]

/-- First field of the columns map that is not a valid scalar-update field,
if any: the source loops over `cols.keys()` and returns a 400 on the first
invalid one. -/
def firstInvalidField (cols : List (String × CqlVal)) : Option String :=
  (cols.map Prod.fst).find? (fun f => ¬ validUpdateFields.contains f)

/-- Application of one columns-map entry to the task row.  Only the two
valid fields can reach this point. -/
def applyCol (row : TaskRow) (kv : String × CqlVal) : TaskRow :=
  match kv with
  | ("duedate", .int v) => { row with duedate := v }
  | ("message", .str s) => { row with message := s }
  | _ => row

/-- Conflict error of the optimistic pre-check in `Task::update` and
`Task::update_assignees`. -/
def conflictErr (current expected : Int) : HTTPError :=
  ⟨409, "Task updated_at conflict, expected updated_at " ++ toString current ++
    ", got " ++ toString expected⟩

/-- Error returned when an `IF updated_at=?` write of `Task::update` or
`Task::update_assignees` is not applied. -/
def updateCasErr : HTTPError := ⟨409, "Task update failed, please try again"⟩

/-- Model of `Task::update` (src/db/model_task.rs:132-187), the scalar
optimistic update.  Steps of the code, in order: every key of the columns
map must be `duedate` or `message`, otherwise a 400 before any read or
write; `get_one` re-reads `status`/`updated_at`; if the stored `updated_at`
differs from the caller's expected one, a 409 without writing; otherwise one
conditional write (`IF updated_at=?`, applied here since the equality was
just checked) stamps `updated_at := now` and sets the given fields.  The
code mutates `self` and returns `true`; the `ok` value here is the
`updated_at` value the call leaves in the struct for chaining. -/
def Task.update (db : Option TaskRow) (cols : List (String × CqlVal))
    (updated_at now : Int) : TaskOut Int :=
  match firstInvalidField cols with
  | some f => ⟨.error ⟨400, "Invalid field: " ++ f⟩, db, []⟩
  | none =>
    match db with
    | none => ⟨.error notFoundErr, none, []⟩
    | some row =>
      if row.updated_at ≠ updated_at then
        ⟨.error (conflictErr row.updated_at updated_at), some row, []⟩
      else
        let row1 := { cols.foldl applyCol row with updated_at := now }
        ⟨.ok now, some row1, [Write.scalarUpdate cols now]⟩

/-- Model of `Task::update_assignees` (src/db/model_task.rs:189-262).
Steps of the code, in order: `get_one` re-reads `updated_at` and a mismatch
with the caller's expected value is a 409 with no mutation; if `remove` is
non-empty, one conditional write (`IF updated_at=?`, applied here) removes
those ids from `assignees` and stamps `updated_at := now`, and the local
expected version becomes `now`; if `add` is non-empty, a second conditional
write adds those ids (`IF updated_at=?` against the local expected
version).  `interfere` models a concurrent writer hitting the row between
the two set mutations (the window claim C8 is about); `id` means no
concurrency.  When interference changes `updated_at`, the second write is
not applied and the call errors with the removals already durable — no
rollback. -/
def Task.update_assignees (db : Option TaskRow) (remove add : List Xid)
    (updated_at now : Int) (interfere : Option TaskRow → Option TaskRow) :
    TaskOut Bool :=
  match db with
  | none => ⟨.error notFoundErr, none, []⟩
  | some row =>
    if row.updated_at ≠ updated_at then
      ⟨.error (conflictErr row.updated_at updated_at), some row, []⟩
    else
      let step1 : Option TaskRow × List Write × Int :=
        if remove ≠ [] then
          (some { row with assignees := row.assignees \ remove.toFinset,
                           updated_at := now },
            [Write.assigneesRemove remove now], now)
        else (some row, [], updated_at)
      let db2 := interfere step1.1
      if add ≠ [] then
        match db2 with
        | none => ⟨.error updateCasErr, none, step1.2.1⟩
        | some row2 =>
          if row2.updated_at = step1.2.2 then
            ⟨.ok true,
              some { row2 with assignees := row2.assignees ∪ add.toFinset,
                               updated_at := now },
              step1.2.1 ++ [Write.assigneesAdd add now]⟩
          else ⟨.error updateCasErr, some row2, step1.2.1⟩
      else ⟨.ok true, db2, step1.2.1⟩

/-- Error returned when the `INSERT ... IF NOT EXISTS` of `Task::save` is
not applied. -/
def saveErr : HTTPError := ⟨409, "Task save failed, please try again"⟩

/-- Model of `Task::save` (src/db/model_task.rs:99-130): stamps
`updated_at` from a fresh clock read (`unix_ms`), then inserts the full row
`IF NOT EXISTS`; when a row already exists at the key, the insert is not
applied, a 409 is returned and the existing row is untouched. -/
def Task.save (row : TaskRow) (db : Option TaskRow) (nowSave : Int) :
    TaskOut TaskRow :=
  let row1 := { row with updated_at := nowSave }
  match db with
  | some existing => ⟨.error saveErr, some existing, []⟩
  | none => ⟨.ok row1, some row1, [Write.insertTask row1]⟩

/-- Input of `api::task::create` (`CreateTaskInput` in src/api/task.rs),
restricted to the fields that reach the task row.  The `group_role`
fan-out has no effect on the task row and is omitted. -/
structure CreateTaskInput where
  uid : Xid
  gid : Xid
  kind : String
  threshold : Int
  approvers : List Xid
  assignees : List Xid
  message : String
  payload : List Nat
deriving DecidableEq

/-- Validator constraints of `CreateTaskInput`: `threshold` in `[0, 256]`,
at most 4 approvers, at most 256 assignees. -/
def CreateTaskInput.valid (i : CreateTaskInput) : Bool :=
  0 ≤ i.threshold && i.threshold ≤ 256 &&
    i.approvers.length ≤ 4 && i.assignees.length ≤ 256

/-- Validation error of the api layer (`input.validate()?`). -/
def validationErr : HTTPError := ⟨400, "invalid input"⟩

/-- Model of `api::task::create` (src/api/task.rs:150-201), restricted to
its effect on the task store.  After validation the handler builds the row
with a fresh identity `newId` (`xid::new()`), `status = 0`,
`created_at = updated_at = unix_ms()` (`nowCreate`), empty
`resolved`/`rejected` sets, and calls `Task::save`, which re-stamps
`updated_at` from a second `unix_ms()` read (`nowSave`) before the
`IF NOT EXISTS` insert.  The notification fan-out writes are best-effort
(`let _ = ...`) and do not touch the task row. -/
def api.createTask (input : CreateTaskInput) (newId : Xid)
    (nowCreate nowSave : Int) (db : Option TaskRow) : TaskOut TaskRow :=
  if ¬ input.valid then ⟨.error validationErr, db, []⟩
  else
    let doc : TaskRow :=
      { uid := input.uid, id := newId, gid := input.gid, status := 0,
        kind := input.kind, created_at := nowCreate, updated_at := nowCreate,
        duedate := 0, threshold := input.threshold,
        approvers := input.approvers.toFinset,
        assignees := input.assignees.toFinset,
        resolved := ∅, rejected := ∅,
        message := input.message, payload := input.payload }
    Task.save doc db nowSave

/-- Error surfaced when the notification `get_one` finds no row. -/
def notifNotFoundErr : HTTPError := ⟨404, "notification not found"⟩

/-- Error of the explicit status check in `api::task::ack`. -/
def invalidStatusErr (s : Int) : HTTPError :=
  ⟨400, "invalid status, expected -1 or 1, got " ++ toString s⟩

/-- Result of the ack handler: the returned "changed" flag or error, both
stores after the call, and the writes issued. -/
structure AckOut where
  res : Except HTTPError Bool
  notifDb : Option NotifRow
  taskDb : Option TaskRow
  writes : List Write
deriving DecidableEq

/-- Model of `api::task::ack` (src/api/task.rs:213-256).  Steps of the
code, in order: the validator bounds `status` to `[-1, 1]`; the explicit
check then requires `status ∈ {-1, 1}` (400 otherwise); the notification
row is loaded (`get_one`, not-found if absent); if its stored status equals
the requested one, the handler returns `false` without any further read or
write; otherwise a fresh `Task::with_pk(doc.sender, doc.tid)` struct (all
in-memory sets empty) casts the vote — `update_resolved` for `+1`,
`update_rejected` for `-1` — and any vote error propagates with the
notification untouched; finally the notification row's `status`/`message`
are set by an existence-checked write (applied, the row was just read). -/
def api.ack (notifDb : Option NotifRow) (taskDb : Option TaskRow)
    (status : Int) (message : String) : AckOut :=
  if status < -1 ∨ 1 < status then ⟨.error validationErr, notifDb, taskDb, []⟩
  else if status ≠ -1 ∧ status ≠ 1 then
    ⟨.error (invalidStatusErr status), notifDb, taskDb, []⟩
  else
    match notifDb with
    | none => ⟨.error notifNotFoundErr, none, taskDb, []⟩
    | some doc =>
      if doc.status = status then ⟨.ok false, some doc, taskDb, []⟩
      else
        let voteRes : TaskOut Bool :=
          if status = 1 then Task.update_resolved taskDb doc.uid
          else Task.update_rejected ∅ ∅ taskDb doc.uid
        match voteRes.res with
        | .error e => ⟨.error e, some doc, voteRes.db, voteRes.writes⟩
        | .ok _ =>
          ⟨.ok true, some { doc with status := status, message := message },
            voteRes.db, voteRes.writes ++ [Write.notifSet status message]⟩

/-- Model of the per-notification task fetch loop of
`api::notification::list` (src/api/notification.rs:195-200): for every
notification row of the fetched page, the referenced task row is loaded
with `Task::get_one`; the `?` operator propagates a not-found failure,
abandoning the whole response.  `lookup sender tid` is the task store;
each output pairs the task row with the notification's ack status
(`NotificationOutput::from(task, notiy.status, ...)`). -/
def api.listNotifTasks (lookup : Xid → Xid → Option TaskRow) :
    List NotifRow → Except HTTPError (List (TaskRow × Int))
  | [] => .ok []
  | n :: rest =>
    match lookup n.sender n.tid with
    | none => .error notFoundErr
    | some t =>
      match api.listNotifTasks lookup rest with
      | .error e => .error e
      | .ok out => .ok ((t, n.status) :: out)

/-- One vote operation, as castable through the system: a resolve vote, or
a reject vote carried by a caller whose in-memory struct holds the given
`approvers`/`assignees` fields (empty through the ack path). -/
inductive VoteOp where
  | resolve (voter : Xid)
  | reject (memApprovers memAssignees : Finset Xid) (voter : Xid)
deriving DecidableEq

/-- Task store after one vote operation; a failed vote leaves the store as
the operation left it. -/
def stepVote (db : Option TaskRow) (op : VoteOp) : Option TaskRow :=
  match op with
  | .resolve v => (Task.update_resolved db v).db
  | .reject a b v => (Task.update_rejected a b db v).db

/-- Task store after a sequence of vote operations. -/
def runVotes (db : Option TaskRow) (ops : List VoteOp) : Option TaskRow :=
  ops.foldl stepVote db

/-- Set-exclusivity invariant: no identity is in both `resolved` and
`rejected`. -/
def voteExclusive (db : Option TaskRow) : Prop :=
  match db with
  | none => True
  | some row => row.resolved ∩ row.rejected = ∅

instance : ∀ db : Option TaskRow, Decidable (voteExclusive db)
  | none => isTrue trivial
  | some row => inferInstanceAs (Decidable (row.resolved ∩ row.rejected = ∅))

/-- Row after the vote write of a resolve vote: the single conditional
write `rejected=rejected-{voter}, resolved=resolved+{voter}` of
`Task::update_resolved`. -/
def applyResolveVote (row : TaskRow) (voter : Xid) : TaskRow :=
  { row with rejected := row.rejected.erase voter,
             resolved := insert voter row.resolved }

/-- Approval rule evaluated on the re-read state: status not yet approved,
voter with decision authority, resolved count at threshold and strictly
above the rejected count.  (The code computes `can_approve` from the
`approvers` read before the vote write; the vote write does not change
`approvers`, so the value agrees with the re-read row used here.) -/
def approvalRule (row1 : TaskRow) (voter : Xid) : Prop :=
  row1.status ≠ 1 ∧ (row1.approvers = ∅ ∨ voter ∈ row1.approvers) ∧
    i16AsUsize row1.threshold ≤ row1.resolved.card ∧
    row1.rejected.card < row1.resolved.card

instance (row1 : TaskRow) (voter : Xid) : Decidable (approvalRule row1 voter) := by
  unfold approvalRule; infer_instance

/-- Blank task row used to build concrete test rows. -/
def TaskRow.base : TaskRow :=
  ⟨0, 0, 0, 0, "", 0, 0, 0, 0, ∅, ∅, ∅, ∅, "", []⟩

/-- Concrete row of the claim C1 scenario: approvers `{1}` (the spec's A),
assignees `{2}` (the spec's B), threshold 1. -/
def scenarioRow : TaskRow :=
  { TaskRow.base with approvers := {1}, assignees := {2}, threshold := 1 }

/-- Concrete row for claim C2's counterexample: approvers `{1}`, assignees
empty. -/
def onlyApproversRow : TaskRow := { TaskRow.base with approvers := {1} }

/-- Concrete row for claim C3: approvers `{1}`, assignees `{2}`,
threshold 2. -/
def permRow : TaskRow :=
  { TaskRow.base with approvers := {1}, assignees := {2}, threshold := 2 }

/-- Concrete row of the claim C6 scenario: threshold 2, approvers empty,
assignees `{1, 2, 3}` (the spec's A, B, C). -/
def c6Row : TaskRow :=
  { TaskRow.base with threshold := 2, assignees := {1, 2, 3} }

/-- Claim C6 row after A's resolve vote. -/
def c6RowA : TaskRow := { c6Row with resolved := {1} }

/-- Claim C6 row after B's resolve vote: the threshold is crossed and the
status write fires.  The resolved set is written as `{2, 1}`, the
insertion order the vote write produces. -/
def c6RowB : TaskRow := { c6Row with resolved := {2, 1}, status := 1 }

/-- Claim C6 row after C's reject vote: the rejected set gains C, the
status stays approved. -/
def c6RowC : TaskRow := { c6RowB with rejected := {3} }

/-- Votes used by the C4 witness: a resolve, a flip to reject by the same
voter, and a resolve by another voter. -/
def c4Ops : List VoteOp :=
  [VoteOp.resolve 5, VoteOp.reject ∅ ∅ 5, VoteOp.resolve 6]

/-- Pending notification used by the C5 counterexample. -/
def ackNotif : NotifRow := ⟨7, 8, 9, 0, ""⟩

/-- Already-acked notification (status 1) used by the C5 witness. -/
def ackNotifAcked : NotifRow := ⟨7, 8, 9, 1, ""⟩

/-- Concrete row for the C7 witness: stored `updated_at` 100. -/
def updRow : TaskRow := { TaskRow.base with updated_at := 100 }

/-- Concrete row for the C8 witness: assignees `{1, 2}`, stored
`updated_at` 100. -/
def asgRow : TaskRow := { TaskRow.base with assignees := {1, 2}, updated_at := 100 }

/-- Concurrent writer used by the C8 witness: bumps the row's version
token between the two set mutations. -/
def bumpClock : Option TaskRow → Option TaskRow :=
  fun db => db.map (fun r => { r with updated_at := 999 })

/-- Row the C8 witness ends on: removal applied, version bumped by the
concurrent writer, addition absent. -/
def asgRowAfter : TaskRow :=
  { asgRow with assignees := asgRow.assignees \ ([1] : List Xid).toFinset,
                updated_at := 999 }

/-- Input used by the C9 counterexample and witness. -/
def c9Input : CreateTaskInput := ⟨1, 2, "k", 1, [3], [4], "m", []⟩

/-- Row that `api::task::create` builds and `Task::save` stores: identity
from the handler, pending status, `created_at` from the handler clock
read, `updated_at` from the save clock read, empty vote sets. -/
def createdRow (input : CreateTaskInput) (newId : Xid) (t1 t2 : Int) : TaskRow :=
  { uid := input.uid, id := newId, gid := input.gid, status := 0,
    kind := input.kind, created_at := t1, updated_at := t2, duedate := 0,
    threshold := input.threshold, approvers := input.approvers.toFinset,
    assignees := input.assignees.toFinset, resolved := ∅, rejected := ∅,
    message := input.message, payload := input.payload }

/-- Task store used by the C10 witness: every key holds the blank row. -/
def c10Lookup : Xid → Xid → Option TaskRow := fun _ _ => some TaskRow.base

/-- Notification page used by the C10 witness. -/
def c10Notifs : List NotifRow := [⟨1, 2, 3, 0, ""⟩, ⟨1, 4, 3, 1, "ok"⟩]

/-- C1: after `castResolveVote` records the vote (adding the voter to
`resolved`, removing it from `rejected`), the status write `status := 1`
is issued if and only if, on the re-read state, the status is not already
approved, the voter has decision authority (`approvers` empty or voter a
member), the resolved count has reached the threshold, and strictly
exceeds the rejected count; the stored row ends approved exactly under
that rule and otherwise only gains the vote. -/
theorem resolve_status_rule (row : TaskRow) (voter : Xid)
    (hperm : ¬ ((row.approvers ≠ ∅ ∨ row.assignees ≠ ∅) ∧
      voter ∉ row.approvers ∧ voter ∉ row.assignees)) :
    (Task.update_resolved (some row) voter).res = .ok true ∧
    (Write.setStatus 1 ∈ (Task.update_resolved (some row) voter).writes ↔
      approvalRule (applyResolveVote row voter) voter) ∧
    (Task.update_resolved (some row) voter).db =
      some (if approvalRule (applyResolveVote row voter) voter
        then { applyResolveVote row voter with status := 1 }
        else applyResolveVote row voter) := by
  by_cases hrule : approvalRule (applyResolveVote row voter) voter
  · simp only [Task.update_resolved, if_neg hperm, approvalRule,
      applyResolveVote] at hrule ⊢
    rw [if_pos hrule, if_pos hrule]
    simpa using hrule
  · simp only [Task.update_resolved, if_neg hperm, approvalRule,
      applyResolveVote] at hrule ⊢
    rw [if_neg hrule, if_neg hrule]
    simp only [List.mem_singleton, reduceCtorEq, false_iff, and_true, true_and]
    push_neg at hrule
    simpa using hrule

/-- Witness for C1, instantiating the claim's scenario (`approvers = [A]`,
`assignees = [B]`, `threshold = 1` with A = 1, B = 2): B's resolve vote is
recorded without the status write, and A's subsequent resolve vote fires
it. -/
theorem resolve_status_rule_witness :
    (¬ ((scenarioRow.approvers ≠ ∅ ∨ scenarioRow.assignees ≠ ∅) ∧
      2 ∉ scenarioRow.approvers ∧ 2 ∉ scenarioRow.assignees)) ∧
    ((Task.update_resolved (some scenarioRow) 2).res = .ok true ∧
     (Write.setStatus 1 ∈ (Task.update_resolved (some scenarioRow) 2).writes ↔
       approvalRule (applyResolveVote scenarioRow 2) 2) ∧
     (Task.update_resolved (some scenarioRow) 2).db =
       some (if approvalRule (applyResolveVote scenarioRow 2) 2
         then { applyResolveVote scenarioRow 2 with status := 1 }
         else applyResolveVote scenarioRow 2)) ∧
    ((Task.update_resolved (some (applyResolveVote scenarioRow 2)) 1).res = .ok true ∧
     (Write.setStatus 1 ∈
        (Task.update_resolved (some (applyResolveVote scenarioRow 2)) 1).writes ↔
       approvalRule (applyResolveVote (applyResolveVote scenarioRow 2) 1) 1) ∧
     (Task.update_resolved (some (applyResolveVote scenarioRow 2)) 1).db =
       some (if approvalRule (applyResolveVote (applyResolveVote scenarioRow 2) 1) 1
         then { applyResolveVote (applyResolveVote scenarioRow 2) 1 with status := 1 }
         else applyResolveVote (applyResolveVote scenarioRow 2) 1)) :=
  ⟨by decide, resolve_status_rule scenarioRow 2 (by decide),
    resolve_status_rule (applyResolveVote scenarioRow 2) 1 (by decide)⟩

/-- C2 counterexample: with `approvers = {1}` non-empty, `assignees` empty
and voter 2 in neither set, the claim says the vote is accepted (only one
of the two sets is non-empty), but the code refuses with the 403
permission error. -/
theorem resolve_perm_counterexample :
    onlyApproversRow.approvers ≠ ∅ ∧ onlyApproversRow.assignees = ∅ ∧
    (2 : Xid) ∉ onlyApproversRow.approvers ∧
    (Task.update_resolved (some onlyApproversRow) 2).res = .error permResolveErr ∧
    (Task.update_resolved (some onlyApproversRow) 2).res ≠ .ok true := by decide

/-- C2 amended: `castResolveVote` fails with the 403 permission error if
and only if at least one of `approvers`/`assignees` is non-empty and the
voter is a member of neither; in every other case the vote is accepted. -/
theorem resolve_perm_rule (row : TaskRow) (voter : Xid) :
    ((Task.update_resolved (some row) voter).res = .error permResolveErr ↔
      ((row.approvers ≠ ∅ ∨ row.assignees ≠ ∅) ∧
        voter ∉ row.approvers ∧ voter ∉ row.assignees)) ∧
    ((Task.update_resolved (some row) voter).res = .ok true ↔
      ¬ ((row.approvers ≠ ∅ ∨ row.assignees ≠ ∅) ∧
        voter ∉ row.approvers ∧ voter ∉ row.assignees)) := by
  by_cases hperm : ((row.approvers ≠ ∅ ∨ row.assignees ≠ ∅) ∧
      voter ∉ row.approvers ∧ voter ∉ row.assignees)
  · simp only [Task.update_resolved, if_pos hperm]
    simp [hperm, permResolveErr]
  · simp only [Task.update_resolved, if_neg hperm]
    constructor
    · constructor
      · intro h
        split at h <;> simp_all
      · simp_all
    · constructor
      · intro _; exact hperm
      · intro _
        split <;> simp

/-- C3: the reject path is not symmetric to the resolve path — the code
does not re-read `approvers`/`assignees` before its permission check, so
through the ack path (fresh struct, both in-memory sets empty) the check
can never fire.  Concrete demonstration on a row with `approvers = {1}`,
`assignees = {2}`: voter 3, in neither set, is refused by the resolve path
with the 403 error, but the reject path accepts the vote and records it in
`rejected`. -/
theorem reject_skips_permission_reread :
    (Task.update_resolved (some permRow) 3).res = .error permResolveErr ∧
    (Task.update_rejected ∅ ∅ (some permRow) 3).res = .ok true ∧
    (Task.update_rejected ∅ ∅ (some permRow) 3).db =
      some { permRow with rejected := {3} } := by decide

/-- C6: the claim's scenario with threshold 2, empty approvers and
assignees `{1, 2, 3}`: voter 1 resolves (recorded, still pending), voter 2
resolves (threshold crossed, status write fires), voter 3 then rejects
(recorded, reject rule not met, status stays approved). -/
theorem scenario_majority_approval :
    Task.update_resolved (some c6Row) 1 =
      ⟨.ok true, some c6RowA, [Write.voteResolve 1]⟩ ∧
    Task.update_resolved (some c6RowA) 2 =
      ⟨.ok true, some c6RowB, [Write.voteResolve 2, Write.setStatus 1]⟩ ∧
    Task.update_rejected ∅ ∅ (some c6RowB) 3 =
      ⟨.ok true, some c6RowC, [Write.voteReject 3]⟩ ∧
    c6RowA.resolved = {1} ∧ c6RowA.status = 0 ∧
    c6RowB.resolved = {1, 2} ∧ c6RowB.status = 1 ∧
    c6RowC.rejected = {3} ∧ c6RowC.status = 1 := by decide

/-- Helper: inserting an identity into one vote set while erasing it from
the other preserves disjointness of the two sets. -/
theorem insert_inter_erase_eq_empty {A B : Finset Xid} {v : Xid}
    (h : A ∩ B = ∅) : (insert v A) ∩ (B.erase v) = ∅ := by
  rw [Finset.eq_empty_iff_forall_not_mem] at h ⊢
  intro x hx
  rw [Finset.mem_inter, Finset.mem_insert, Finset.mem_erase] at hx
  obtain ⟨h1, h2, h3⟩ := hx
  rcases h1 with rfl | h1
  · exact h2 rfl
  · exact h x (Finset.mem_inter.mpr ⟨h1, h3⟩)

/-- Helper: one vote operation preserves set exclusivity of
`resolved`/`rejected`. -/
theorem stepVote_exclusive (db : Option TaskRow) (op : VoteOp)
    (hinv : voteExclusive db) : voteExclusive (stepVote db op) := by
  cases op with
  | resolve v =>
    cases db with
    | none => exact hinv
    | some row =>
      simp only [voteExclusive] at hinv
      simp only [stepVote, Task.update_resolved]
      split
      · exact hinv
      · split
        · exact insert_inter_erase_eq_empty hinv
        · exact insert_inter_erase_eq_empty hinv
  | reject a b v =>
    cases db with
    | none =>
      simp only [stepVote, Task.update_rejected]
      split
      · exact hinv
      · exact trivial
    | some row =>
      simp only [voteExclusive] at hinv
      have hswap : row.rejected ∩ row.resolved = ∅ := by
        rwa [Finset.inter_comm] at hinv
      simp only [stepVote, Task.update_rejected]
      split
      · exact hinv
      · split
        · show (row.resolved.erase v) ∩ (insert v row.rejected) = ∅
          rw [Finset.inter_comm]
          exact insert_inter_erase_eq_empty hswap
        · show (row.resolved.erase v) ∩ (insert v row.rejected) = ∅
          rw [Finset.inter_comm]
          exact insert_inter_erase_eq_empty hswap

/-- C4: after any sequence of resolve/reject vote operations, each voter
identity is in at most one of `resolved`/`rejected`: every vote write
removes the voter from the opposite set in the same write that adds it to
the target set, so the disjointness of the two sets is invariant. -/
theorem vote_exclusive_invariant (db : Option TaskRow) (ops : List VoteOp)
    (hinv : voteExclusive db) : voteExclusive (runVotes db ops) := by
  induction ops generalizing db with
  | nil => exact hinv
  | cons op rest ih =>
    exact ih (stepVote db op) (stepVote_exclusive db op hinv)

/-- Witness for C4 at a concrete initial store and vote sequence. -/
theorem vote_exclusive_invariant_witness :
    voteExclusive (some TaskRow.base) ∧
    voteExclusive (runVotes (some TaskRow.base) c4Ops) :=
  ⟨by decide, vote_exclusive_invariant (some TaskRow.base) c4Ops (by decide)⟩

/-- C5 counterexample: for a stored notification in the pending state 0,
an ack request with the same requested status 0 does not return the false
no-op the claim promises — the handler's explicit status check rejects 0
with a 400 error before the stored status is even compared. -/
theorem ack_same_status_counterexample :
    ackNotif.status = 0 ∧
    api.ack (some ackNotif) (some TaskRow.base) 0 "m" =
      ⟨.error (invalidStatusErr 0), some ackNotif, some TaskRow.base, []⟩ ∧
    (api.ack (some ackNotif) (some TaskRow.base) 0 "m").res ≠ .ok false := by
  decide

/-- C5 amended: for ack requests whose requested status is a valid vote
(-1 or 1), acking a notification already holding that status returns the
false no-op and performs no vote mutation and no write to either store;
and after a successful (true) ack, repeating the identical call is a no-op
on the second call. -/
theorem ack_idempotent (doc : NotifRow) (taskDb : Option TaskRow) (s : Int)
    (msg : String) (hs : s = -1 ∨ s = 1) :
    (doc.status = s →
      api.ack (some doc) taskDb s msg = ⟨.ok false, some doc, taskDb, []⟩) ∧
    ((api.ack (some doc) taskDb s msg).res = .ok true →
      api.ack (api.ack (some doc) taskDb s msg).notifDb
          (api.ack (some doc) taskDb s msg).taskDb s msg =
        ⟨.ok false, (api.ack (some doc) taskDb s msg).notifDb,
          (api.ack (some doc) taskDb s msg).taskDb, []⟩) := by
  have hg1 : ¬ (s < -1 ∨ 1 < s) := by rcases hs with rfl | rfl <;> norm_num
  have hg2 : ¬ (s ≠ -1 ∧ s ≠ 1) := by rcases hs with rfl | rfl <;> simp
  constructor
  · intro heq
    simp only [api.ack, if_neg hg1, if_neg hg2, if_pos heq]
  · intro hsucc
    by_cases heq : doc.status = s
    · simp only [api.ack, if_neg hg1, if_neg hg2, if_pos heq] at hsucc
      cases hsucc
    · rcases hres : (if s = 1 then Task.update_resolved taskDb doc.uid
          else Task.update_rejected ∅ ∅ taskDb doc.uid).res with e | b
      · simp only [api.ack, if_neg hg1, if_neg hg2, if_neg heq, hres] at hsucc
        cases hsucc
      · have hcall : api.ack (some doc) taskDb s msg =
            ⟨.ok true, some { doc with status := s, message := msg },
              (if s = 1 then Task.update_resolved taskDb doc.uid
                else Task.update_rejected ∅ ∅ taskDb doc.uid).db,
              (if s = 1 then Task.update_resolved taskDb doc.uid
                else Task.update_rejected ∅ ∅ taskDb doc.uid).writes ++
                [Write.notifSet s msg]⟩ := by
          simp only [api.ack, if_neg hg1, if_neg hg2, if_neg heq, hres]
        rw [hcall]
        simp only [api.ack, if_neg hg1, if_neg hg2]
        simp

/-- Witness for C5: a notification already acked with status 1, re-acked
with status 1. -/
theorem ack_idempotent_witness :
    ((1 : Int) = -1 ∨ (1 : Int) = 1) ∧
    ((ackNotifAcked.status = 1 →
      api.ack (some ackNotifAcked) (some TaskRow.base) 1 "m" =
        ⟨.ok false, some ackNotifAcked, some TaskRow.base, []⟩) ∧
     ((api.ack (some ackNotifAcked) (some TaskRow.base) 1 "m").res = .ok true →
      api.ack (api.ack (some ackNotifAcked) (some TaskRow.base) 1 "m").notifDb
          (api.ack (some ackNotifAcked) (some TaskRow.base) 1 "m").taskDb 1 "m" =
        ⟨.ok false,
          (api.ack (some ackNotifAcked) (some TaskRow.base) 1 "m").notifDb,
          (api.ack (some ackNotifAcked) (some TaskRow.base) 1 "m").taskDb, []⟩)) :=
  ⟨by decide, ack_idempotent ackNotifAcked (some TaskRow.base) 1 "m" (by decide)⟩

/-- C7: `Task::update` accepts only the field names `duedate` and
`message` — any other field name fails with a 400 validation error before
any read or write (the store is untouched even when the row is absent); a
stale expected `updated_at` fails with a 409 conflict and the row is
unchanged; on success the row is stamped with the fresh `updated_at`,
which is also the value returned for chaining further optimistic
updates. -/
theorem update_scalar_rules (db : Option TaskRow) (cols : List (String × CqlVal))
    (ua now : Int) :
    (∀ f, firstInvalidField cols = some f →
      Task.update db cols ua now = ⟨.error ⟨400, "Invalid field: " ++ f⟩, db, []⟩) ∧
    (∀ row, db = some row → firstInvalidField cols = none → row.updated_at ≠ ua →
      Task.update db cols ua now =
        ⟨.error (conflictErr row.updated_at ua), some row, []⟩) ∧
    (∀ row, db = some row → firstInvalidField cols = none → row.updated_at = ua →
      Task.update db cols ua now =
        ⟨.ok now, some { cols.foldl applyCol row with updated_at := now },
          [Write.scalarUpdate cols now]⟩) := by
  refine ⟨?_, ?_, ?_⟩
  · intro f hf
    simp only [Task.update, hf]
  · rintro row rfl hnone hne
    simp only [Task.update, hnone, if_pos hne]
  · rintro row rfl hnone heq
    simp only [Task.update, hnone]
    rw [if_neg (by simp [heq])]

/-- Witness for C7: the success path at a concrete row, a valid `duedate`
column, the matching version token 100 and a fresh clock 200. -/
theorem update_scalar_rules_witness :
    (some updRow = some updRow ∧
      firstInvalidField [("duedate", CqlVal.int 5)] = none ∧
      updRow.updated_at = 100) ∧
    Task.update (some updRow) [("duedate", CqlVal.int 5)] 100 200 =
      ⟨.ok 200,
        some { [("duedate", CqlVal.int 5)].foldl applyCol updRow with updated_at := 200 },
        [Write.scalarUpdate [("duedate", CqlVal.int 5)] 200]⟩ :=
  ⟨⟨rfl, by decide, by decide⟩,
    (update_scalar_rules (some updRow) [("duedate", CqlVal.int 5)] 100 200).2.2
      updRow rfl (by decide) (by decide)⟩

/-- C8: `Task::update_assignees` validates the version token once against
the stored `updated_at` — a mismatch is a 409 conflict with no mutation —
then issues the removal write only when `remove` is non-empty, followed by
the addition write only when `add` is non-empty; when the removal write
has succeeded and a concurrent writer (`interfere`) invalidates the row's
version before the addition write, that second write is not applied: the
call errors, the removals stay durable, the additions are absent and no
rollback is issued. -/
theorem update_assignees_two_phase (row : TaskRow) (remove add : List Xid)
    (ua now : Int) (interfere : Option TaskRow → Option TaskRow) :
    (row.updated_at ≠ ua →
      Task.update_assignees (some row) remove add ua now interfere =
        ⟨.error (conflictErr row.updated_at ua), some row, []⟩) ∧
    (remove = [] →
      ∀ ids t, Write.assigneesRemove ids t ∉
        (Task.update_assignees (some row) remove add ua now interfere).writes) ∧
    (add = [] →
      ∀ ids t, Write.assigneesAdd ids t ∉
        (Task.update_assignees (some row) remove add ua now interfere).writes) ∧
    (row.updated_at = ua → remove ≠ [] → add ≠ [] →
      ∀ row2,
        interfere (some { row with assignees := row.assignees \ remove.toFinset,
                                   updated_at := now }) = some row2 →
        row2.updated_at ≠ now →
        Task.update_assignees (some row) remove add ua now interfere =
          ⟨.error updateCasErr, some row2, [Write.assigneesRemove remove now]⟩) := by
  refine ⟨?_, ?_, ?_, ?_⟩
  · intro hne
    simp only [Task.update_assignees]
    rw [if_pos hne]
  · rintro rfl ids t
    simp only [Task.update_assignees]
    split
    · simp
    · simp only [ne_eq, not_true_eq_false, reduceIte]
      cases hi : interfere (some row) <;> simp only [hi] <;> split_ifs <;> simp
  · rintro rfl ids t
    simp only [Task.update_assignees]
    split
    · simp
    · simp only [ne_eq, not_true_eq_false, reduceIte]
      split <;> simp
  · intro heq hrem hadd row2 hint hne2
    simp only [Task.update_assignees]
    rw [if_neg (by simp [heq])]
    simp only [if_pos hrem, if_pos hadd, hint]
    simp [hne2]

/-- Witness for C8: remove `[1]` then add `[3]` with a concurrent version
bump between the two writes — the call errors, the removal is durable, the
addition is not issued. -/
theorem update_assignees_two_phase_witness :
    (asgRow.updated_at = 100 ∧ ([1] : List Xid) ≠ [] ∧ ([3] : List Xid) ≠ [] ∧
      bumpClock (some { asgRow with
        assignees := asgRow.assignees \ ([1] : List Xid).toFinset,
        updated_at := 200 }) = some asgRowAfter ∧
      asgRowAfter.updated_at ≠ 200) ∧
    Task.update_assignees (some asgRow) [1] [3] 100 200 bumpClock =
      ⟨.error updateCasErr, some asgRowAfter, [Write.assigneesRemove [1] 200]⟩ ∧
    asgRowAfter.assignees = {2} :=
  ⟨⟨rfl, by decide, by decide, rfl, by decide⟩,
    (update_assignees_two_phase asgRow [1] [3] 100 200 bumpClock).2.2.2
      rfl (by decide) (by decide) asgRowAfter rfl (by decide),
    by decide⟩

/-- C9 counterexample: the create handler reads the clock once for
`created_at`/`updated_at` (100) and `Task::save` re-stamps `updated_at`
from a second clock read (101) before the insert, so when the clock
advances between the two reads the stored row has
`updated_at ≠ created_at`, against the claim that both are set to the same
current timestamp. -/
theorem create_timestamps_counterexample :
    (api.createTask c9Input 10 100 101 none).db.map
        (fun r => (r.created_at, r.updated_at)) = some (100, 101) ∧
    (100 : Int) ≠ 101 := by decide

/-- C9 amended: create builds the row with a fresh identity, status
pending (0), `created_at` from the handler's clock read and `updated_at`
re-stamped from the save-time clock read (equal exactly when the clock has
not advanced between the two), empty `resolved`/`rejected` sets, and
performs an insert-if-absent: an existing row at the identity is a 409
conflict and is not overwritten. -/
theorem create_insert_if_absent (input : CreateTaskInput) (newId : Xid)
    (t1 t2 : Int) (db : Option TaskRow) (hv : input.valid = true) :
    (db = none →
      ∃ r, api.createTask input newId t1 t2 db =
          ⟨.ok r, some r, [Write.insertTask r]⟩ ∧
        r.uid = input.uid ∧ r.id = newId ∧ r.status = 0 ∧
        r.created_at = t1 ∧ r.updated_at = t2 ∧
        r.resolved = ∅ ∧ r.rejected = ∅) ∧
    (∀ existing, db = some existing →
      api.createTask input newId t1 t2 db = ⟨.error saveErr, some existing, []⟩) := by
  constructor
  · rintro rfl
    have hrow : api.createTask input newId t1 t2 none =
        ⟨.ok (createdRow input newId t1 t2), some (createdRow input newId t1 t2),
          [Write.insertTask (createdRow input newId t1 t2)]⟩ := by
      simp [api.createTask, hv, Task.save, createdRow]
    exact ⟨createdRow input newId t1 t2, hrow, rfl, rfl, rfl, rfl, rfl, rfl, rfl⟩
  · rintro existing rfl
    simp [api.createTask, hv, Task.save]

/-- Witness for C9 at the concrete input, with the store empty. -/
theorem create_insert_if_absent_witness :
    c9Input.valid = true ∧
    ((none = (none : Option TaskRow) →
      ∃ r, api.createTask c9Input 10 100 101 none =
          ⟨.ok r, some r, [Write.insertTask r]⟩ ∧
        r.uid = c9Input.uid ∧ r.id = 10 ∧ r.status = 0 ∧
        r.created_at = 100 ∧ r.updated_at = 101 ∧
        r.resolved = ∅ ∧ r.rejected = ∅) ∧
     (∀ existing, (none : Option TaskRow) = some existing →
      api.createTask c9Input 10 100 101 none = ⟨.error saveErr, some existing, []⟩)) :=
  ⟨by decide, create_insert_if_absent c9Input 10 100 101 none (by decide)⟩

/-- C10: listing a recipient's notifications fetches the referenced task
row for every notification of the page — the response has one entry per
notification when every task exists — and when any referenced task row is
absent the whole call fails with the task not-found error instead of
returning the remaining notifications. -/
theorem list_requires_all_tasks (lookup : Xid → Xid → Option TaskRow)
    (notifs : List NotifRow) :
    ((∀ n ∈ notifs, (lookup n.sender n.tid).isSome) →
      ∃ l, api.listNotifTasks lookup notifs = .ok l ∧
        l.length = notifs.length) ∧
    ((∃ n ∈ notifs, lookup n.sender n.tid = none) →
      api.listNotifTasks lookup notifs = .error notFoundErr) := by
  induction notifs with
  | nil =>
    constructor
    · intro _
      exact ⟨[], rfl, rfl⟩
    · rintro ⟨n, hn, _⟩
      cases hn
  | cons n rest ih =>
    constructor
    · intro hall
      have hn := hall n (List.mem_cons_self n rest)
      cases hsome : lookup n.sender n.tid with
      | none => rw [hsome] at hn; cases hn
      | some t =>
        obtain ⟨l, hl, hlen⟩ :=
          ih.1 (fun m hm => hall m (List.mem_cons_of_mem _ hm))
        refine ⟨(t, n.status) :: l, ?_, by simp [hlen]⟩
        simp only [api.listNotifTasks, hsome, hl]
    · rintro ⟨m, hm, hmn⟩
      rcases List.mem_cons.mp hm with rfl | hm2
      · simp only [api.listNotifTasks, hmn]
      · cases hsome : lookup n.sender n.tid with
        | none => simp only [api.listNotifTasks, hsome]
        | some t =>
          have htail := ih.2 ⟨m, hm2, hmn⟩
          simp only [api.listNotifTasks, hsome, htail]

/-- Witness for C10: a two-notification page whose tasks all exist. -/
theorem list_requires_all_tasks_witness :
    (∀ n ∈ c10Notifs, (c10Lookup n.sender n.tid).isSome) ∧
    (∃ l, api.listNotifTasks c10Lookup c10Notifs = .ok l ∧
      l.length = c10Notifs.length) :=
  ⟨by decide, (list_requires_all_tasks c10Lookup c10Notifs).1 (by decide)⟩

end Taskbase
